import Mathlib

/-!
Shallow embedding of the TradingView-to-Bybit Cloudflare worker
(src/index.ts, version 2.0) and theorems about it: JavaScript payload
values and truthiness, the webhook validation, symbol cleanup,
order-parameter construction, JSON serialization, HMAC-SHA256 request
signing, exchange-response classification, and the webhook handler.
-/

namespace BybitWorker

/-! ### SHA-256 over byte lists (bytes and words are `Nat`) -/

/-- Right rotation of a 32-bit word represented as a `Nat` below `2 ^ 32`. -/
def rotr32 (n x : Nat) : Nat :=
  (x / 2 ^ n + x % 2 ^ n * 2 ^ (32 - n)) % 4294967296

/-- Bitwise complement of a 32-bit word. -/
def not32 (x : Nat) : Nat := Nat.xor x 4294967295

/-- FIPS 180-4 choose function. -/
def ch32 (x y z : Nat) : Nat := Nat.xor (Nat.land x y) (Nat.land (not32 x) z)

/-- FIPS 180-4 majority function. -/
def maj32 (x y z : Nat) : Nat :=
  Nat.xor (Nat.xor (Nat.land x y) (Nat.land x z)) (Nat.land y z)

/-- FIPS 180-4 big sigma 0. -/
def bsig0 (x : Nat) : Nat := Nat.xor (Nat.xor (rotr32 2 x) (rotr32 13 x)) (rotr32 22 x)

/-- FIPS 180-4 big sigma 1. -/
def bsig1 (x : Nat) : Nat := Nat.xor (Nat.xor (rotr32 6 x) (rotr32 11 x)) (rotr32 25 x)

/-- FIPS 180-4 small sigma 0; the final term is a plain right shift by 3. -/
def ssig0 (x : Nat) : Nat := Nat.xor (Nat.xor (rotr32 7 x) (rotr32 18 x)) (x / 8)

/-- FIPS 180-4 small sigma 1; the final term is a plain right shift by 10. -/
def ssig1 (x : Nat) : Nat := Nat.xor (Nat.xor (rotr32 17 x) (rotr32 19 x)) (x / 1024)

/-- The 64 SHA-256 round constants (FIPS 180-4 section 4.2.2), in decimal. -/
def sha256K : List Nat :=
  [1116352408, 1899447441, 3049323471, 3921009573,
   961987163, 1508970993, 2453635748, 2870763221,
   3624381080, 310598401, 607225278, 1426881987,
   1925078388, 2162078206, 2614888103, 3248222580,
   3835390401, 4022224774, 264347078, 604807628,
   770255983, 1249150122, 1555081692, 1996064986,
   2554220882, 2821834349, 2952996808, 3210313671,
   3336571891, 3584528711, 113926993, 338241895,
   666307205, 773529912, 1294757372, 1396182291,
   1695183700, 1986661051, 2177026350, 2456956037,
   2730485921, 2820302411, 3259730800, 3345764771,
   3516065817, 3600352804, 4094571909, 275423344,
   430227734, 506948616, 659060556, 883997877,
   958139571, 1322822218, 1537002063, 1747873779,
   1955562222, 2024104815, 2227730452, 2361852424,
   2428436474, 2756734187, 3204031479, 3329325298]

/-- Eight-word SHA-256 working state. -/
structure Sha256State where
  a : Nat
  b : Nat
  c : Nat
  d : Nat
  e : Nat
  f : Nat
  g : Nat
  h : Nat
deriving DecidableEq, Repr

/-- The eight SHA-256 initial hash values (FIPS 180-4 section 5.3.3), in
decimal. -/
def sha256Init : Sha256State :=
  ⟨1779033703, 3144134277, 1013904242, 2773480762,
   1359893119, 2600822924, 528734635, 1541459225⟩

/-- Big-endian 32-bit word at index `t` of one 64-byte block. -/
def blockWord (block : List Nat) (t : Nat) : Nat :=
  block.getD (4 * t) 0 * 16777216 + block.getD (4 * t + 1) 0 * 65536 +
    block.getD (4 * t + 2) 0 * 256 + block.getD (4 * t + 3) 0

/-- Message schedule of one block (FIPS 180-4 section 6.2.2 step 1). -/
def msgSchedule (block : List Nat) : List Nat :=
  (List.range 64).foldl
    (fun ws t =>
      if t < 16 then ws ++ [blockWord block t]
      else ws ++ [(ssig1 (ws.getD (t - 2) 0) + ws.getD (t - 7) 0 +
        ssig0 (ws.getD (t - 15) 0) + ws.getD (t - 16) 0) % 4294967296])
    []

/-- One round of the SHA-256 compression function. -/
def sha256Round (s : Sha256State) (kt wt : Nat) : Sha256State :=
  let t1 := (s.h + bsig1 s.e + ch32 s.e s.f s.g + kt + wt) % 4294967296
  let t2 := (bsig0 s.a + maj32 s.a s.b s.c) % 4294967296
  ⟨(t1 + t2) % 4294967296, s.a, s.b, s.c, (s.d + t1) % 4294967296, s.e, s.f, s.g⟩

/-- Compression of one 64-byte block into the running state. -/
def compressBlock (s : Sha256State) (block : List Nat) : Sha256State :=
  let w := msgSchedule block
  let t := (List.range 64).foldl
    (fun st i => sha256Round st (sha256K.getD i 0) (w.getD i 0)) s
  ⟨(s.a + t.a) % 4294967296, (s.b + t.b) % 4294967296, (s.c + t.c) % 4294967296,
   (s.d + t.d) % 4294967296, (s.e + t.e) % 4294967296, (s.f + t.f) % 4294967296,
   (s.g + t.g) % 4294967296, (s.h + t.h) % 4294967296⟩

/-- Big-endian 8-byte rendering of the bit-length field. -/
def lenBytes64 (n : Nat) : List Nat :=
  [n / 2 ^ 56 % 256, n / 2 ^ 48 % 256, n / 2 ^ 40 % 256, n / 2 ^ 32 % 256,
   n / 2 ^ 24 % 256, n / 2 ^ 16 % 256, n / 2 ^ 8 % 256, n % 256]

/-- SHA-256 padding: append 0x80, zero bytes to 56 mod 64, then the 64-bit length. -/
def padMessage (m : List Nat) : List Nat :=
  m ++ 128 :: (List.replicate ((119 - m.length % 64) % 64) 0 ++ lenBytes64 (8 * m.length))

/-- Big-endian 4-byte serialization of one 32-bit word. -/
def word4 (x : Nat) : List Nat :=
  [x / 2 ^ 24 % 256, x / 2 ^ 16 % 256, x / 2 ^ 8 % 256, x % 256]

/-- Serialization of the final state into the 32 digest bytes. -/
def digestBytes (s : Sha256State) : List Nat :=
  [s.a, s.b, s.c, s.d, s.e, s.f, s.g, s.h].flatMap word4

/-- SHA-256 of a byte list. -/
def sha256 (m : List Nat) : List Nat :=
  let p := padMessage m
  digestBytes ((List.range (p.length / 64)).foldl
    (fun st i => compressBlock st ((p.drop (64 * i)).take 64)) sha256Init)

/-- Modelled from the spec: the Web Crypto HMAC-SHA-256 primitive
(crypto.subtle.importKey and crypto.subtle.sign with hash SHA-256) invoked by
the worker is platform code absent from the repository; following the spec
(keyed HMAC using SHA-256 over the canonical string, secret as key) it is
modelled as FIPS 198-1 HMAC over SHA-256 with the 64-byte block size. -/
def hmacSha256 (key msg : List Nat) : List Nat :=
  let k0 := if 64 < key.length then sha256 key else key
  let kp := k0 ++ List.replicate (64 - k0.length) 0
  sha256 (kp.map (fun x => Nat.xor x 92) ++ sha256 (kp.map (fun x => Nat.xor x 54) ++ msg))

/-! ### UTF-8 and hexadecimal encodings -/

/-- UTF-8 encoding of one character (the TextEncoder used by the worker). -/
def charUtf8 (c : Char) : List Nat :=
  let n := c.toNat
  if n < 128 then [n]
  else if n < 2048 then [192 + n / 64, 128 + n % 64]
  else if n < 65536 then [224 + n / 4096, 128 + n / 64 % 64, 128 + n % 64]
  else [240 + n / 262144, 128 + n / 4096 % 64, 128 + n / 64 % 64, 128 + n % 64]

/-- UTF-8 bytes of a string. -/
def strUtf8 (s : String) : List Nat := s.data.flatMap charUtf8

/-- Left-padding of a digit list with the zero character to two characters. -/
def padTwo (ds : List Char) : List Char := List.replicate (2 - ds.length) '0' ++ ds

/-- Rendering of one byte exactly as the worker does: minimal lowercase
hexadecimal digits, left-padded with the zero character to width two. -/
def byteToHex (x : Nat) : List Char := padTwo (Nat.toDigits 16 x)

/-- Hex rendering of a byte list, each byte to two characters, joined. -/
def hexEncodeBytes (bs : List Nat) : String := String.mk (bs.flatMap byteToHex)

/-- The sixteen lowercase hexadecimal digit characters. -/
def hexDigitsLower : List Char := "0123456789abcdef".data

/-- Boolean test that every character of a string is a lowercase hex digit. -/
def isLowerHex (s : String) : Bool := s.data.all (fun c => hexDigitsLower.contains c)

/-- Embedding of generateHmacSha256 (src/index.ts lines 194 to 219): UTF-8
encode secret and message, compute the keyed digest, then render each digest
byte as two lowercase hexadecimal characters and join the pieces. -/
def generateHmacSha256 (message secret : String) : String :=
  hexEncodeBytes (hmacSha256 (strUtf8 secret) (strUtf8 message))

/-! ### JavaScript payload values

Numeric JSON payload values are modelled as integers (every concrete value
appearing in the worker, the spec and the claims is an integer; the exchange
bound rendering is the decimal text of the number). The action and symbol
fields are modelled as optional strings: the worker only ever compares the
action against a string literal and calls string methods on the symbol. -/

/-- JSON value as the worker can observe it in the qty, sl and tp fields. -/
inductive JSVal where
  | null : JSVal
  | bool : Bool → JSVal
  | num : Int → JSVal
  | str : String → JSVal
deriving DecidableEq, Repr

/-- JavaScript truthiness of a possibly absent field value: an absent field,
null, false, numeric zero and the empty string are falsy. -/
def jsTruthy : Option JSVal → Bool
  | none => false
  | some JSVal.null => false
  | some (JSVal.bool b) => b
  | some (JSVal.num n) => decide (n ≠ 0)
  | some (JSVal.str s) => decide (s ≠ "")

/-- JavaScript truthiness of a possibly absent string field. -/
def jsStrTruthy : Option String → Bool
  | none => false
  | some s => decide (s ≠ "")

/-- JavaScript toString on a field value; the null and absent cases are
unreachable behind the worker's truthiness validation. -/
def jsToString : JSVal → String
  | JSVal.null => "null"
  | JSVal.bool true => "true"
  | JSVal.bool false => "false"
  | JSVal.num n => toString n
  | JSVal.str s => s

/-- Decimal digit run to a number, if nonempty and all digits. -/
def decDigitsVal (l : List Char) : Option Nat :=
  if l ≠ [] ∧ l.all Char.isDigit then
    some (l.foldl (fun acc c => acc * 10 + (c.toNat - 48)) 0)
  else none

/-- Whitespace as stripped by the string trim of the worker. -/
def isJsSpace (c : Char) : Bool :=
  (c == ' ') || (c == '\t') || (c == '\n') || (c == '\r')

/-- Trim of leading and trailing whitespace on a character list. -/
def trimChars (l : List Char) : List Char :=
  ((l.dropWhile isJsSpace).reverse.dropWhile isJsSpace).reverse

/-- JavaScript ToNumber on a string, restricted to the integral forms the
model carries: optional sign and decimal digits; the empty or blank string
converts to zero, anything else to NaN (`none`). -/
def jsStrToNumber (s : String) : Option Int :=
  match trimChars s.data with
  | [] => some 0
  | '-' :: rest => (decDigitsVal rest).map (fun n => -(n : Int))
  | '+' :: rest => (decDigitsVal rest).map (fun n => (n : Int))
  | l => (decDigitsVal l).map (fun n => (n : Int))

/-- JavaScript comparison value > 0 with ToNumber coercion; comparisons
against NaN are false. -/
def jsGtZero : JSVal → Bool
  | JSVal.null => false
  | JSVal.bool b => b
  | JSVal.num n => decide (0 < n)
  | JSVal.str s =>
    match jsStrToNumber s with
    | some n => decide (0 < n)
    | none => false

/-- Truthiness conjoined with positivity, as in the sl and tp guards. -/
def jsPosGuard (o : Option JSVal) : Bool :=
  match o with
  | none => false
  | some v => jsTruthy (some v) && jsGtZero v

/-! ### Worker data model -/

/-- Environment bindings of the worker. -/
structure Env where
  BYBIT_API_KEY : String
  BYBIT_SECRET : String
deriving DecidableEq, Repr

/-- Inbound TradingView alert payload, restricted to the fields the worker
reads (action, symbol, qty, sl, tp); the remaining declared fields (price,
risk, regime and so on) are never read by the worker and are omitted. -/
structure RawAlert where
  action : Option String
  symbol : Option String
  qty : Option JSVal
  sl : Option JSVal
  tp : Option JSVal
deriving DecidableEq, Repr

/-- Exchange-facing order parameters, fields in insertion order of the
source object literal; stopLoss and takeProfit are attached conditionally. -/
structure OrderParams where
  category : String
  symbol : String
  side : String
  orderType : String
  qty : String
  timeInForce : String
  stopLoss : Option String
  takeProfit : Option String
deriving DecidableEq, Repr

/-- JSON body of the exchange response: the exchange-internal status code,
its message, and the remaining payload treated as opaque text. -/
structure ExchangeResult where
  retCode : Int
  retMsg : String
  payload : String
deriving DecidableEq, Repr

/-- HTTP response from the exchange: the ok flag (status in the 200 range)
and the parsed JSON body. -/
structure HttpResponse where
  ok : Bool
  body : ExchangeResult
deriving DecidableEq, Repr

deriving instance DecidableEq for Except

/-! ### String helpers of the worker -/

/-- Replacement of the first occurrence of a pattern, scanning left to
right, as the JavaScript string replace with a string pattern does; a
missing pattern leaves the list unchanged. -/
def replaceFirst : List Char → List Char → List Char → List Char
  | [], _, _ => []
  | c :: rest, pat, rep =>
    if (c :: rest).take pat.length = pat then rep ++ (c :: rest).drop pat.length
    else c :: replaceFirst rest pat rep

/-- ASCII uppercasing of one character. -/
def asciiUpper (c : Char) : Char :=
  if 'a' ≤ c ∧ c ≤ 'z' then Char.ofNat (c.toNat - 32) else c

/-- Embedding of the symbol cleanup (src/index.ts lines 133 to 138): remove
the first occurrence of each equity suffix, trim, uppercase (ASCII). -/
def cleanSymbol (s : String) : String :=
  String.mk ((trimChars (replaceFirst (replaceFirst (replaceFirst s.data
    ("-EQ".data) []) (".NS".data) []) (".BSE".data) [])).map asciiUpper)

/-! ### JSON serialization of the order parameters -/

/-- Left brace character as text. -/
def lbrace : String := "\x7b"

/-- Right brace character as text. -/
def rbrace : String := "\x7d"

/-- JSON escaping of one character as JSON.stringify performs it. -/
def jsonEscapeChar (c : Char) : List Char :=
  if c = '"' then ['\\', '"']
  else if c = '\\' then ['\\', '\\']
  else if c = '\n' then ['\\', 'n']
  else if c = '\r' then ['\\', 'r']
  else if c = '\t' then ['\\', 't']
  else if c.toNat = 8 then ['\\', 'b']
  else if c.toNat = 12 then ['\\', 'f']
  else if c.toNat < 32 then '\\' :: 'u' :: '0' :: '0' :: byteToHex c.toNat
  else [c]

/-- JSON string literal for a string value. -/
def jsonQuote (s : String) : String :=
  "\"" ++ String.mk (s.data.flatMap jsonEscapeChar) ++ "\""

/-- JSON.stringify of the order parameters: object keys in insertion order
(category, symbol, side, orderType, qty, timeInForce, then stopLoss and
takeProfit when attached), no whitespace. -/
def serializeOrderParams (op : OrderParams) : String :=
  lbrace ++ "\"category\":" ++ jsonQuote op.category ++
    ",\"symbol\":" ++ jsonQuote op.symbol ++
    ",\"side\":" ++ jsonQuote op.side ++
    ",\"orderType\":" ++ jsonQuote op.orderType ++
    ",\"qty\":" ++ jsonQuote op.qty ++
    ",\"timeInForce\":" ++ jsonQuote op.timeInForce ++
    (match op.stopLoss with
     | some v => ",\"stopLoss\":" ++ jsonQuote v
     | none => "") ++
    (match op.takeProfit with
     | some v => ",\"takeProfit\":" ++ jsonQuote v
     | none => "") ++
    rbrace

/-! ### Order building and signing (placeBybitOrder, lines 128 to 189) -/

/-- Fixed receive window of the worker. -/
def recvWindow : String := "5000"

/-- Embedding of the order-parameter construction (lines 141 to 158):
category is the string literal spot, the symbol is cleaned, the side is the
strict comparison of the action against the literal BUY, qty is rendered by
toString, and stopLoss and takeProfit are attached only when the alert value
is truthy and greater than zero. -/
def buildOrderParams (a : RawAlert) : OrderParams :=
  ⟨"spot",
   cleanSymbol (match a.symbol with | some s => s | none => "undefined"),
   if a.action = some "BUY" then "Buy" else "Sell",
   "Market",
   jsToString (match a.qty with | some v => v | none => JSVal.null),
   "GTC",
   if jsPosGuard a.sl then some (jsToString ((a.sl).getD JSVal.null)) else none,
   if jsPosGuard a.tp then some (jsToString ((a.tp).getD JSVal.null)) else none⟩

/-- Signed request as assembled before the HTTP call: the order parameters,
the canonical signing string (line 161, with its own serialization call),
the signature, the transmitted body (line 178, a separate serialization
call) and the authentication headers. -/
structure SignedRequest where
  orderParams : OrderParams
  paramString : String
  signature : String
  body : String
  headerApiKey : String
  headerTimestamp : String
  headerRecvWindow : String
deriving DecidableEq, Repr

/-- Embedding of the request assembly inside placeBybitOrder (lines 129 to
179): the signing string concatenates timestamp, API key, receive window and
the serialized body with no delimiters; the HTTP body is the serialization
of the same order parameters. -/
def buildSignedRequest (a : RawAlert) (env : Env) (ts : String) : SignedRequest :=
  let op := buildOrderParams a
  let paramString := ts ++ env.BYBIT_API_KEY ++ recvWindow ++ serializeOrderParams op
  ⟨op, paramString, generateHmacSha256 paramString env.BYBIT_SECRET,
   serializeOrderParams op, env.BYBIT_API_KEY, ts, recvWindow⟩

/-- Error text thrown for a rejected order (line 185): the embedded status
code and the remote message, with a fallback for a falsy message. -/
def bybitErrMsg (r : ExchangeResult) : String :=
  "Bybit API Error [" ++ toString r.retCode ++ "]: " ++
    (if r.retMsg = "" then "Unknown error" else r.retMsg)

/-- Embedding of the response check (lines 184 to 188): the call fails when
the HTTP status is not ok or the embedded status code is nonzero, and
otherwise returns the exchange body unchanged. -/
def classifyResponse (ok : Bool) (r : ExchangeResult) : Except String ExchangeResult :=
  if !ok || !(r.retCode == 0) then Except.error (bybitErrMsg r) else Except.ok r

/-- Embedding of placeBybitOrder (lines 128 to 189) with time and network
made explicit: the timestamp is a parameter and the exchange interaction is
an oracle, an `Except.error` standing for a thrown transport error and an
`Except.ok` for a received HTTP response. The transmitted request itself is
`buildSignedRequest a env ts`; the outcome is classified from the oracle. -/
def placeBybitOrder (a : RawAlert) (env : Env) (ts : String)
    (oracle : Except String HttpResponse) : Except String ExchangeResult :=
  let _sent := buildSignedRequest a env ts
  match oracle with
  | Except.error m => Except.error m
  | Except.ok hr => classifyResponse hr.ok hr.body

/-! ### Webhook handler (the fetch export, lines 29 to 123) -/

/-- Embedding of the validation guard (line 66): any falsy action, symbol or
qty rejects the payload. -/
def validateFails (a : RawAlert) : Bool :=
  !(jsStrTruthy a.action) || !(jsStrTruthy a.symbol) || !(jsTruthy a.qty)

/-- JSON response body rendered by the handler; fields of the five object
literals the handler can emit, each absent field `none` (the ISO timestamp
echoes are real-time values outside the model). -/
structure RespBody where
  success : Bool
  error : Option String
  message : Option String
  hint : Option String
  details : Option String
  received : Option RawAlert
  bybitResponse : Option ExchangeResult
deriving DecidableEq, Repr

/-- HTTP response of the handler: status code and optional JSON body (the
preflight branch returns a null body). -/
structure HandlerResponse where
  status : Nat
  body : Option RespBody
deriving DecidableEq, Repr

/-- POST path of the fetch handler (lines 59 to 121): body parsing (an
`Except.error` standing for a JSON parse failure caught by the catch-all),
field validation, credential check, order placement, and the catch-all that
renders any thrown error as a 500 with the error message. -/
def handlePost (payload : Except String RawAlert) (env : Env)
    (ts : String) (oracle : Except String HttpResponse) : HandlerResponse :=
  match payload with
    | Except.error e => ⟨500, some ⟨false, some e, none, none, some e, none, none⟩⟩
    | Except.ok a =>
      if validateFails a then
        ⟨400, some ⟨false, some "Missing required fields: action, symbol, qty",
          none, none, none, some a, none⟩⟩
      else if env.BYBIT_API_KEY = "" || env.BYBIT_SECRET = "" then
        ⟨500, some ⟨false, some "Bybit API credentials not configured", none,
          some "Add BYBIT_API_KEY and BYBIT_SECRET in Cloudflare Worker settings",
          none, none, none⟩⟩
      else
        match placeBybitOrder a env ts oracle with
        | Except.error m => ⟨500, some ⟨false, some m, none, none, some m, none, none⟩⟩
        | Except.ok r =>
          ⟨200, some ⟨true, none, some "Order placed successfully", none, none,
            none, some r⟩⟩

/-- Embedding of the fetch handler (lines 30 to 122): preflight branch,
method guard, then the POST path. -/
def handleFetch (method : String) (payload : Except String RawAlert) (env : Env)
    (ts : String) (oracle : Except String HttpResponse) : HandlerResponse :=
  if method = "OPTIONS" then ⟨204, none⟩
  else if method ≠ "POST" then
    ⟨405, some ⟨false, some "Method not allowed. Use POST.", none, none, none, none, none⟩⟩
  else handlePost payload env ts oracle

/-! ### Helper lemmas: encodings and digest shape -/

theorem strUtf8_append (s t : String) : strUtf8 (s ++ t) = strUtf8 s ++ strUtf8 t := by
  simp [strUtf8]

theorem digestBytes_length (s : Sha256State) : (digestBytes s).length = 32 := rfl

theorem sha256_length (m : List Nat) : (sha256 m).length = 32 := rfl

theorem mem_word4_lt (x w : Nat) (h : x ∈ word4 w) : x < 256 := by
  simp [word4] at h
  rcases h with h | h | h | h <;> omega

theorem digestBytes_lt (s : Sha256State) : ∀ x ∈ digestBytes s, x < 256 := by
  intro x hx
  simp only [digestBytes, List.mem_flatMap] at hx
  obtain ⟨w, _, hxw⟩ := hx
  exact mem_word4_lt x w hxw

theorem sha256_lt (m : List Nat) : ∀ x ∈ sha256 m, x < 256 :=
  digestBytes_lt _

theorem hmacSha256_eq_sha256 (key msg : List Nat) :
    hmacSha256 key msg =
      sha256 (((if 64 < key.length then sha256 key else key) ++
          List.replicate (64 - (if 64 < key.length then sha256 key else key).length) 0).map
            (fun x => Nat.xor x 92) ++
        sha256 (((if 64 < key.length then sha256 key else key) ++
          List.replicate (64 - (if 64 < key.length then sha256 key else key).length) 0).map
            (fun x => Nat.xor x 54) ++ msg)) := rfl

theorem hmacSha256_length (key msg : List Nat) : (hmacSha256 key msg).length = 32 := by
  rw [hmacSha256_eq_sha256]
  exact sha256_length _

theorem hmacSha256_lt (key msg : List Nat) : ∀ x ∈ hmacSha256 key msg, x < 256 := by
  rw [hmacSha256_eq_sha256]
  exact sha256_lt _

set_option maxRecDepth 4000 in
theorem byteToHex_facts :
    ∀ x < 256, (byteToHex x).length = 2 ∧ ∀ c ∈ byteToHex x, hexDigitsLower.contains c = true := by
  decide

theorem flatMap_byteToHex_length (bs : List Nat) (h : ∀ x ∈ bs, x < 256) :
    (bs.flatMap byteToHex).length = 2 * bs.length := by
  induction bs with
  | nil => rfl
  | cons x xs ih =>
    have hx := (byteToHex_facts x (h x (List.mem_cons_self x xs))).1
    have hxs := ih (fun y hy => h y (List.mem_cons_of_mem x hy))
    simp [List.flatMap_cons, hx, hxs]
    ring

theorem hexEncodeBytes_length (bs : List Nat) (h : ∀ x ∈ bs, x < 256) :
    (hexEncodeBytes bs).length = 2 * bs.length :=
  flatMap_byteToHex_length bs h

theorem hexEncodeBytes_lowerHex (bs : List Nat) (h : ∀ x ∈ bs, x < 256) :
    isLowerHex (hexEncodeBytes bs) = true := by
  simp only [isLowerHex, hexEncodeBytes, List.all_eq_true]
  intro c hc
  simp only [String.data, List.mem_flatMap] at hc
  obtain ⟨x, hx, hcx⟩ := hc
  exact (byteToHex_facts x (h x hx)).2 c hcx

theorem generateHmacSha256_length (message secret : String) :
    (generateHmacSha256 message secret).length = 64 := by
  have h := hexEncodeBytes_length (hmacSha256 (strUtf8 secret) (strUtf8 message))
    (hmacSha256_lt _ _)
  rw [hmacSha256_length] at h
  exact h

theorem generateHmacSha256_lowerHex (message secret : String) :
    isLowerHex (generateHmacSha256 message secret) = true :=
  hexEncodeBytes_lowerHex _ (hmacSha256_lt _ _)

/-! ### Claim theorems -/

/-- C1: for every order body, API key, secret, timestamp and receive window,
the signature is the HMAC-SHA256, keyed by the secret, of the concatenation
timestamp, API key, receive window and serialized body in that exact order
with no delimiters, encoded as a lowercase hexadecimal string of exactly 64
characters. -/
theorem claim_C1_signature_canonical (a : RawAlert) (env : Env) (ts : String) :
    (buildSignedRequest a env ts).signature =
      hexEncodeBytes (hmacSha256 (strUtf8 env.BYBIT_SECRET)
        (strUtf8 ts ++ strUtf8 env.BYBIT_API_KEY ++ strUtf8 recvWindow ++
          strUtf8 (buildSignedRequest a env ts).body)) ∧
    (buildSignedRequest a env ts).signature.length = 64 ∧
    isLowerHex (buildSignedRequest a env ts).signature = true := by
  refine ⟨?_, ?_, ?_⟩
  · show generateHmacSha256
      (ts ++ env.BYBIT_API_KEY ++ recvWindow ++ serializeOrderParams (buildOrderParams a))
      env.BYBIT_SECRET = _
    rw [generateHmacSha256, strUtf8_append, strUtf8_append, strUtf8_append]
    rfl
  · exact generateHmacSha256_length _ _
  · exact generateHmacSha256_lowerHex _ _

/-- C2: for every alert processed by placeBybitOrder, the serialized order
body used as the final segment of the signing string is byte-identical to
the body transmitted in the HTTP request: the signing string is exactly the
timestamp, the API key, the receive window and the transmitted body, both as
text and at the level of the encoded bytes. -/
theorem claim_C2_signed_body_is_transmitted_body (a : RawAlert) (env : Env) (ts : String) :
    (buildSignedRequest a env ts).paramString =
      ts ++ env.BYBIT_API_KEY ++ recvWindow ++ (buildSignedRequest a env ts).body ∧
    strUtf8 (buildSignedRequest a env ts).paramString =
      strUtf8 ts ++ strUtf8 env.BYBIT_API_KEY ++ strUtf8 recvWindow ++
        strUtf8 (buildSignedRequest a env ts).body := by
  refine ⟨rfl, ?_⟩
  show strUtf8 (ts ++ env.BYBIT_API_KEY ++ recvWindow ++ serializeOrderParams (buildOrderParams a)) = _
  rw [strUtf8_append, strUtf8_append, strUtf8_append]
  rfl

theorem handleFetch_post (payload : Except String RawAlert) (env : Env) (ts : String)
    (oracle : Except String HttpResponse) :
    handleFetch "POST" payload env ts oracle = handlePost payload env ts oracle := rfl

/-- C3 counterexample: the alert of the scenario (action Buy, symbol
BTCUSDT, quantity 10, no product category) is built with category spot, not
the linear-perpetual category the claim states. -/
theorem claim_C3_counterexample :
    (buildOrderParams ⟨some "BUY", some "BTCUSDT", some (JSVal.num 10), none, none⟩).category
        = "spot" ∧
    (buildOrderParams ⟨some "BUY", some "BTCUSDT", some (JSVal.num 10), none, none⟩).category
        ≠ "linear" := by
  decide

/-- C3 amended: the built order request always has category spot (the worker
hardcodes the spot category and reads no product-category field); the alert
of the scenario yields exactly category spot, side Buy, order type Market,
quantity text 10, time in force GTC and no stop-loss or take-profit field. -/
theorem claim_C3_amended :
    (∀ a : RawAlert, (buildOrderParams a).category = "spot") ∧
    buildOrderParams ⟨some "BUY", some "BTCUSDT", some (JSVal.num 10), none, none⟩ =
      ⟨"spot", "BTCUSDT", "Buy", "Market", "10", "GTC", none, none⟩ :=
  ⟨fun _ => rfl, by decide⟩

/-- C4 counterexample: the payload with quantity minus five is not rejected:
validation passes, the order is built with quantity text minus five, and
with a successful exchange oracle the handler answers 200. -/
theorem claim_C4_counterexample :
    validateFails ⟨some "BUY", some "BTCUSDT", some (JSVal.num (-5)), none, none⟩ = false ∧
    (buildOrderParams ⟨some "BUY", some "BTCUSDT", some (JSVal.num (-5)), none, none⟩).qty
        = "-5" ∧
    (handleFetch "POST" (Except.ok ⟨some "BUY", some "BTCUSDT", some (JSVal.num (-5)), none, none⟩)
        ⟨"k", "s"⟩ "1700000000000" (Except.ok ⟨true, ⟨0, "OK", ""⟩⟩)).status = 200 := by
  refine ⟨by decide, by decide, ?_⟩
  rw [handleFetch_post]
  decide

theorem handlePost_status_of_valid (a : RawAlert) (env : Env) (ts : String)
    (oracle : Except String HttpResponse) (hv : validateFails a = false) :
    (handlePost (Except.ok a) env ts oracle).status = 500 ∨
      (handlePost (Except.ok a) env ts oracle).status = 200 := by
  simp only [handlePost, hv, Bool.false_eq_true, if_false]
  split
  · exact Or.inl rfl
  · split
    · exact Or.inl rfl
    · exact Or.inr rfl

/-- C4 amended: the handler rejects with the 400 validation response exactly
when action, symbol or qty is falsy; for a numeric qty that means only the
value zero is rejected, so a negative quantity (and any non-empty string
quantity) passes validation, and the validation failure response is produced
before the exchange is consulted. -/
theorem claim_C4_amended :
    (∀ (a : RawAlert) (env : Env) (ts : String) (oracle : Except String HttpResponse),
      (handleFetch "POST" (Except.ok a) env ts oracle).status = 400 ↔ validateFails a = true) ∧
    (∀ (act sym : String) (sl tp : Option JSVal) (n : Int),
      validateFails ⟨some act, some sym, some (JSVal.num n), sl, tp⟩ =
        (act == "" || sym == "" || n == 0)) ∧
    (∀ (a : RawAlert) (env : Env) (ts : String) (o1 o2 : Except String HttpResponse),
      validateFails a = true →
        handleFetch "POST" (Except.ok a) env ts o1 = handleFetch "POST" (Except.ok a) env ts o2) := by
  refine ⟨?_, ?_, ?_⟩
  · intro a env ts oracle
    rw [handleFetch_post]
    by_cases hv : validateFails a = true
    · simp only [handlePost, hv, if_true]
    · rw [Bool.not_eq_true] at hv
      rcases handlePost_status_of_valid a env ts oracle hv with h | h <;>
        rw [h] <;> simp [hv]
  · intro act sym sl tp n
    simp only [validateFails, jsStrTruthy, jsTruthy]
    by_cases ha : act = "" <;> by_cases hs : sym = "" <;> by_cases hn : n = 0 <;>
      simp [ha, hs, hn]
  · intro a env ts o1 o2 hv
    rw [handleFetch_post, handleFetch_post]
    simp only [handlePost, hv, if_true]

/-- Check of the C4 amended theorem at concrete inputs: an all-absent
payload fails validation and the rejection does not depend on the exchange
oracle. -/
theorem claim_C4_amended_check :
    validateFails ⟨none, none, none, none, none⟩ = true ∧
    handleFetch "POST" (Except.ok ⟨none, none, none, none, none⟩) ⟨"k", "s"⟩ "1"
        (Except.ok ⟨true, ⟨0, "OK", ""⟩⟩) =
      handleFetch "POST" (Except.ok ⟨none, none, none, none, none⟩) ⟨"k", "s"⟩ "1"
        (Except.error "network down") :=
  ⟨by decide, claim_C4_amended.2.2 _ ⟨"k", "s"⟩ "1" _ _ (by decide)⟩

/-- C5 counterexample: the action HOLD passes validation although it is not
Buy or Sell in any case, and the lowercase action buy is mapped to side
Sell, not side Buy. -/
theorem claim_C5_counterexample :
    validateFails ⟨some "HOLD", some "BTCUSDT", some (JSVal.num 10), none, none⟩ = false ∧
    (buildOrderParams ⟨some "buy", some "BTCUSDT", some (JSVal.num 10), none, none⟩).side
        = "Sell" ∧
    (buildOrderParams ⟨some "buy", some "BTCUSDT", some (JSVal.num 10), none, none⟩).side
        ≠ "Buy" := by
  decide

/-- C5 amended: validation only requires the action to be a truthy value (no
membership check against Buy and Sell), and the side mapping is a strict
case-sensitive comparison: exactly the string BUY maps to side Buy and every
other action value maps to side Sell. -/
theorem claim_C5_amended :
    (∀ a : RawAlert,
      (buildOrderParams a).side = if a.action = some "BUY" then "Buy" else "Sell") ∧
    (∀ (act : String), act ≠ "" →
      validateFails ⟨some act, some "BTCUSDT", some (JSVal.num 10), none, none⟩ = false) ∧
    (buildOrderParams ⟨some "BUY", some "X", some (JSVal.num 1), none, none⟩).side = "Buy" ∧
    (buildOrderParams ⟨some "buy", some "X", some (JSVal.num 1), none, none⟩).side = "Sell" := by
  refine ⟨fun a => rfl, ?_, by decide, by decide⟩
  intro act hact
  simp [validateFails, jsStrTruthy, jsTruthy, hact]

/-- Check of the C5 amended theorem at a concrete input: the action HOLD is
nonempty and passes validation. -/
theorem claim_C5_amended_check :
    "HOLD" ≠ "" ∧
    validateFails ⟨some "HOLD", some "BTCUSDT", some (JSVal.num 10), none, none⟩ = false :=
  ⟨by decide, claim_C5_amended.2.1 "HOLD" (by decide)⟩

/-- C6 counterexample: the symbol with an exchange prefix is not stripped of
it; the worker normalizes EXCHANGE:BTCUSDT to itself, not to BTCUSDT. -/
theorem claim_C6_counterexample :
    cleanSymbol "EXCHANGE:BTCUSDT" ≠ "BTCUSDT" ∧
    cleanSymbol "EXCHANGE:BTCUSDT" = "EXCHANGE:BTCUSDT" := by
  decide

/-- C6 amended: symbol normalization removes the first occurrence of each of
the equity suffixes dash EQ, dot NS and dot BSE, trims whitespace and
uppercases, but strips no exchange-prefix segment: RELIANCE-EQ normalizes to
RELIANCE while EXCHANGE:BTCUSDT stays EXCHANGE:BTCUSDT. -/
theorem claim_C6_amended :
    (∀ (act : Option String) (q sl tp : Option JSVal) (s : String),
      (buildOrderParams ⟨act, some s, q, sl, tp⟩).symbol = cleanSymbol s) ∧
    cleanSymbol "RELIANCE-EQ" = "RELIANCE" ∧
    cleanSymbol "TCS.NS" = "TCS" ∧
    cleanSymbol "INFY.BSE" = "INFY" ∧
    cleanSymbol " btcusdt " = "BTCUSDT" ∧
    cleanSymbol "EXCHANGE:BTCUSDT" = "EXCHANGE:BTCUSDT" :=
  ⟨fun _ _ _ _ _ => rfl, by decide, by decide, by decide, by decide, by decide⟩

/-- C7: a stop loss (and likewise a take profit) that is absent or not
greater than zero leaves the corresponding order field absent, not present
with value zero, and a strictly positive value is attached as its decimal
text. -/
theorem claim_C7_sl_tp_optional (act sym : Option String) (q sl tp : Option JSVal) (v : Int) :
    (buildOrderParams ⟨act, sym, q, none, tp⟩).stopLoss = none ∧
    (v ≤ 0 → (buildOrderParams ⟨act, sym, q, some (JSVal.num v), tp⟩).stopLoss = none) ∧
    (0 < v →
      (buildOrderParams ⟨act, sym, q, some (JSVal.num v), tp⟩).stopLoss = some (toString v)) ∧
    (buildOrderParams ⟨act, sym, q, sl, none⟩).takeProfit = none ∧
    (v ≤ 0 → (buildOrderParams ⟨act, sym, q, sl, some (JSVal.num v)⟩).takeProfit = none) ∧
    (0 < v →
      (buildOrderParams ⟨act, sym, q, sl, some (JSVal.num v)⟩).takeProfit = some (toString v)) := by
  refine ⟨rfl, ?_, ?_, rfl, ?_, ?_⟩ <;> intro hv <;>
    simp [buildOrderParams, jsPosGuard, jsTruthy, jsGtZero, jsToString] <;> omega

/-- Check of the C7 theorem at concrete inputs: stop loss minus two is
dropped and take profit seven is attached as the text 7. -/
theorem claim_C7_sl_tp_optional_check :
    (-2 : Int) ≤ 0 ∧ (0 : Int) < 7 ∧
    (buildOrderParams ⟨some "BUY", some "X", some (JSVal.num 1), some (JSVal.num (-2)),
        none⟩).stopLoss = none ∧
    (buildOrderParams ⟨some "BUY", some "X", some (JSVal.num 1), none,
        some (JSVal.num 7)⟩).takeProfit = some (toString (7 : Int)) :=
  ⟨by decide, by decide,
    (claim_C7_sl_tp_optional (some "BUY") (some "X") (some (JSVal.num 1)) none none
      (-2)).2.1 (by decide),
    (claim_C7_sl_tp_optional (some "BUY") (some "X") (some (JSVal.num 1)) none none
      7).2.2.2.2.2 (by decide)⟩

/-- C8 counterexample: an exchange response whose embedded status code is
zero but whose HTTP status is not ok is not passed through unchanged; the
worker raises the exchange error instead. -/
theorem claim_C8_counterexample :
    classifyResponse false ⟨0, "OK", ""⟩ ≠ Except.ok ⟨0, "OK", ""⟩ ∧
    classifyResponse false ⟨0, "OK", ""⟩ = Except.error "Bybit API Error [0]: OK" := by
  decide

/-- C8 amended: a nonzero embedded status code always fails with the
exchange error carrying that code and the remote message, even when the HTTP
status is ok; a zero code is passed through unchanged only when the HTTP
status is also ok, and fails with the same exchange error otherwise. -/
theorem claim_C8_amended (ok : Bool) (r : ExchangeResult) :
    (r.retCode ≠ 0 → classifyResponse ok r = Except.error (bybitErrMsg r)) ∧
    (r.retCode = 0 → classifyResponse true r = Except.ok r) ∧
    (r.retCode = 0 → classifyResponse false r = Except.error (bybitErrMsg r)) := by
  refine ⟨?_, ?_, ?_⟩
  · intro h
    cases ok <;> simp [classifyResponse, h]
  · intro h
    simp [classifyResponse, h]
  · intro h
    simp [classifyResponse, h]

/-- Check of the C8 amended theorem at concrete inputs: code 10001 with HTTP
ok fails with the exchange error, code zero with HTTP ok passes through. -/
theorem claim_C8_amended_check :
    (10001 : Int) ≠ 0 ∧
    classifyResponse true ⟨10001, "bad request", ""⟩ =
      Except.error (bybitErrMsg ⟨10001, "bad request", ""⟩) ∧
    (0 : Int) = 0 ∧
    classifyResponse true ⟨0, "OK", "orderId"⟩ = Except.ok ⟨0, "OK", "orderId"⟩ :=
  ⟨by decide, (claim_C8_amended true ⟨10001, "bad request", ""⟩).1 (by decide),
   rfl, (claim_C8_amended true ⟨0, "OK", "orderId"⟩).2.1 rfl⟩

/-- Exhaustive enumeration of the five response shapes of the POST path. -/
theorem handlePost_cases (payload : Except String RawAlert) (env : Env) (ts : String)
    (oracle : Except String HttpResponse) :
    (∃ e, payload = Except.error e ∧
      handlePost payload env ts oracle =
        ⟨500, some ⟨false, some e, none, none, some e, none, none⟩⟩) ∨
    (∃ a, payload = Except.ok a ∧ validateFails a = true ∧
      handlePost payload env ts oracle =
        ⟨400, some ⟨false, some "Missing required fields: action, symbol, qty",
          none, none, none, some a, none⟩⟩) ∨
    (∃ a, payload = Except.ok a ∧ validateFails a = false ∧
      (env.BYBIT_API_KEY = "" || env.BYBIT_SECRET = "") = true ∧
      handlePost payload env ts oracle =
        ⟨500, some ⟨false, some "Bybit API credentials not configured", none,
          some "Add BYBIT_API_KEY and BYBIT_SECRET in Cloudflare Worker settings",
          none, none, none⟩⟩) ∨
    (∃ a m, payload = Except.ok a ∧ validateFails a = false ∧
      (env.BYBIT_API_KEY = "" || env.BYBIT_SECRET = "") = false ∧
      placeBybitOrder a env ts oracle = Except.error m ∧
      handlePost payload env ts oracle =
        ⟨500, some ⟨false, some m, none, none, some m, none, none⟩⟩) ∨
    (∃ a r, payload = Except.ok a ∧ validateFails a = false ∧
      (env.BYBIT_API_KEY = "" || env.BYBIT_SECRET = "") = false ∧
      placeBybitOrder a env ts oracle = Except.ok r ∧
      handlePost payload env ts oracle =
        ⟨200, some ⟨true, none, some "Order placed successfully", none, none,
          none, some r⟩⟩) := by
  cases payload with
  | error e => exact Or.inl ⟨e, rfl, rfl⟩
  | ok a =>
    by_cases hv : validateFails a = true
    · exact Or.inr (Or.inl ⟨a, rfl, hv, by simp [handlePost, hv]⟩)
    · rw [Bool.not_eq_true] at hv
      cases hc : (env.BYBIT_API_KEY = "" || env.BYBIT_SECRET = "") with
      | true =>
        exact Or.inr (Or.inr (Or.inl ⟨a, rfl, hv, rfl, by simp [handlePost, hv, hc]⟩))
      | false =>
        cases hp : placeBybitOrder a env ts oracle with
        | error m =>
          exact Or.inr (Or.inr (Or.inr (Or.inl
            ⟨a, m, rfl, hv, rfl, hp, by simp [handlePost, hv, hc, hp]⟩)))
        | ok r =>
          exact Or.inr (Or.inr (Or.inr (Or.inr
            ⟨a, r, rfl, hv, rfl, hp, by simp [handlePost, hv, hc, hp]⟩)))

/-- C9: for every inbound POST request the handler answers with a JSON body
carrying a success flag, false failures always carrying an error message;
the validation failure is rendered with the client error status 400, a
transport or exchange failure with the server error status 500 carrying the
raised message, a parse failure with 500, and a success body only ever
accompanies status 200. -/
theorem claim_C9_handler_contract (payload : Except String RawAlert) (env : Env)
    (ts : String) (oracle : Except String HttpResponse) :
    (∃ b : RespBody, (handleFetch "POST" payload env ts oracle).body = some b ∧
      (b.success = true ∨ (b.success = false ∧ b.error.isSome = true))) ∧
    (∀ a : RawAlert, payload = Except.ok a → validateFails a = true →
      (handleFetch "POST" payload env ts oracle).status = 400) ∧
    (∀ (a : RawAlert) (m : String), payload = Except.ok a → validateFails a = false →
      (env.BYBIT_API_KEY = "" || env.BYBIT_SECRET = "") = false →
      placeBybitOrder a env ts oracle = Except.error m →
      (handleFetch "POST" payload env ts oracle).status = 500 ∧
      (handleFetch "POST" payload env ts oracle).body =
        some ⟨false, some m, none, none, some m, none, none⟩) ∧
    (∀ e : String, payload = Except.error e →
      (handleFetch "POST" payload env ts oracle).status = 500) ∧
    (∀ b : RespBody, (handleFetch "POST" payload env ts oracle).body = some b →
      b.success = true → (handleFetch "POST" payload env ts oracle).status = 200) := by
  simp only [handleFetch_post]
  rcases handlePost_cases payload env ts oracle with
    ⟨e, hpay, heq⟩ | ⟨a, hpay, hv, heq⟩ | ⟨a, hpay, hv, hc, heq⟩ |
    ⟨a, m, hpay, hv, hc, hp, heq⟩ | ⟨a, r, hpay, hv, hc, hp, heq⟩ <;>
    subst hpay <;> rw [heq] <;> refine ⟨?_, ?_, ?_, ?_, ?_⟩
  · exact ⟨_, rfl, Or.inr ⟨rfl, rfl⟩⟩
  · intro a ha
    exact absurd ha (by simp)
  · intro a m ha
    exact absurd ha (by simp)
  · intro e' _
    rfl
  · intro b hb
    cases hb
    intro hs
    simp at hs
  · exact ⟨_, rfl, Or.inr ⟨rfl, rfl⟩⟩
  · intro a' ha _
    rfl
  · intro a' m ha hv'
    cases ha
    rw [hv] at hv'
    cases hv'
  · intro e' he
    exact absurd he (by simp)
  · intro b hb
    cases hb
    intro hs
    simp at hs
  · exact ⟨_, rfl, Or.inr ⟨rfl, rfl⟩⟩
  · intro a' ha hv'
    cases ha
    rw [hv] at hv'
    cases hv'
  · intro a' m ha _ hc'
    cases ha
    rw [hc] at hc'
    cases hc'
  · intro e' he
    exact absurd he (by simp)
  · intro b hb
    cases hb
    intro hs
    simp at hs
  · exact ⟨_, rfl, Or.inr ⟨rfl, rfl⟩⟩
  · intro a' ha hv'
    cases ha
    rw [hv] at hv'
    cases hv'
  · intro a' m' ha _ _ hp'
    cases ha
    rw [hp] at hp'
    cases hp'
    exact ⟨rfl, rfl⟩
  · intro e' he
    exact absurd he (by simp)
  · intro b hb
    cases hb
    intro hs
    simp at hs
  · exact ⟨_, rfl, Or.inl rfl⟩
  · intro a' ha hv'
    cases ha
    rw [hv] at hv'
    cases hv'
  · intro a' m' ha _ _ hp'
    cases ha
    rw [hp] at hp'
    cases hp'
  · intro e' he
    exact absurd he (by simp)
  · intro b _ _
    rfl

/-- Check of the C9 theorem at concrete inputs: a payload missing its fields
is rendered 400, a rejected order is rendered 500, a parse failure is
rendered 500, and a successful order is rendered 200. -/
theorem claim_C9_handler_contract_check :
    validateFails ⟨none, none, none, none, none⟩ = true ∧
    (handleFetch "POST" (Except.ok ⟨none, none, none, none, none⟩) ⟨"k", "s"⟩ "1"
      (Except.ok ⟨true, ⟨0, "OK", ""⟩⟩)).status = 400 ∧
    placeBybitOrder ⟨some "BUY", some "BTCUSDT", some (JSVal.num 10), none, none⟩ ⟨"k", "s"⟩ "1"
      (Except.ok ⟨true, ⟨10001, "bad request", ""⟩⟩) =
        Except.error "Bybit API Error [10001]: bad request" ∧
    (handleFetch "POST" (Except.ok ⟨some "BUY", some "BTCUSDT", some (JSVal.num 10), none, none⟩)
      ⟨"k", "s"⟩ "1" (Except.ok ⟨true, ⟨10001, "bad request", ""⟩⟩)).status = 500 ∧
    (handleFetch "POST" (Except.error "Invalid JSON in request body") ⟨"k", "s"⟩ "1"
      (Except.ok ⟨true, ⟨0, "OK", ""⟩⟩)).status = 500 ∧
    (handleFetch "POST" (Except.ok ⟨some "BUY", some "BTCUSDT", some (JSVal.num 10), none, none⟩)
      ⟨"k", "s"⟩ "1" (Except.ok ⟨true, ⟨0, "OK", "orderId"⟩⟩)).status = 200 := by
  refine ⟨by decide, ?_, by decide, ?_, ?_, ?_⟩
  · exact (claim_C9_handler_contract (Except.ok ⟨none, none, none, none, none⟩) ⟨"k", "s"⟩ "1"
      (Except.ok ⟨true, ⟨0, "OK", ""⟩⟩)).2.1 _ rfl (by decide)
  · exact ((claim_C9_handler_contract
      (Except.ok ⟨some "BUY", some "BTCUSDT", some (JSVal.num 10), none, none⟩) ⟨"k", "s"⟩ "1"
      (Except.ok ⟨true, ⟨10001, "bad request", ""⟩⟩)).2.2.1 _
      "Bybit API Error [10001]: bad request" rfl (by decide) (by decide) (by decide)).1
  · exact (claim_C9_handler_contract (Except.error "Invalid JSON in request body") ⟨"k", "s"⟩ "1"
      (Except.ok ⟨true, ⟨0, "OK", ""⟩⟩)).2.2.2.1 _ rfl
  · exact (claim_C9_handler_contract
      (Except.ok ⟨some "BUY", some "BTCUSDT", some (JSVal.num 10), none, none⟩) ⟨"k", "s"⟩ "1"
      (Except.ok ⟨true, ⟨0, "OK", "orderId"⟩⟩)).2.2.2.2
      ⟨true, none, some "Order placed successfully", none, none, none, some ⟨0, "OK", "orderId"⟩⟩
      (by decide) rfl

/-- C10: for every payload passing field validation, an empty API key or an
empty signing secret makes the handler answer the 500 credentials response
with success false, and the answer does not depend on the exchange oracle at
all: nothing is transmitted. -/
theorem claim_C10_missing_credentials (a : RawAlert) (env : Env) (ts : String)
    (o1 o2 : Except String HttpResponse) (hv : validateFails a = false)
    (hc : env.BYBIT_API_KEY = "" ∨ env.BYBIT_SECRET = "") :
    (handleFetch "POST" (Except.ok a) env ts o1).status = 500 ∧
    (handleFetch "POST" (Except.ok a) env ts o1).body =
      some ⟨false, some "Bybit API credentials not configured", none,
        some "Add BYBIT_API_KEY and BYBIT_SECRET in Cloudflare Worker settings",
        none, none, none⟩ ∧
    handleFetch "POST" (Except.ok a) env ts o1 = handleFetch "POST" (Except.ok a) env ts o2 := by
  have hcb : (env.BYBIT_API_KEY = "" || env.BYBIT_SECRET = "") = true := by
    rcases hc with h | h <;> simp [h]
  rw [handleFetch_post, handleFetch_post]
  refine ⟨?_, ?_, ?_⟩ <;> simp [handlePost, hv, hcb]

/-- Check of the C10 theorem at concrete inputs: a valid payload with an
empty API key is answered 500 whatever the exchange oracle would have
returned. -/
theorem claim_C10_missing_credentials_check :
    validateFails ⟨some "BUY", some "BTCUSDT", some (JSVal.num 10), none, none⟩ = false ∧
    ("" : String) = "" ∧
    (handleFetch "POST" (Except.ok ⟨some "BUY", some "BTCUSDT", some (JSVal.num 10), none, none⟩)
      ⟨"", "secret"⟩ "1" (Except.ok ⟨true, ⟨0, "OK", ""⟩⟩)).status = 500 ∧
    handleFetch "POST" (Except.ok ⟨some "BUY", some "BTCUSDT", some (JSVal.num 10), none, none⟩)
        ⟨"", "secret"⟩ "1" (Except.ok ⟨true, ⟨0, "OK", ""⟩⟩) =
      handleFetch "POST" (Except.ok ⟨some "BUY", some "BTCUSDT", some (JSVal.num 10), none, none⟩)
        ⟨"", "secret"⟩ "1" (Except.error "unreachable") := by
  refine ⟨by decide, rfl, ?_, ?_⟩
  · exact (claim_C10_missing_credentials _ ⟨"", "secret"⟩ "1" _
      (Except.error "unreachable") (by decide) (Or.inl rfl)).1
  · exact (claim_C10_missing_credentials _ ⟨"", "secret"⟩ "1" _
      (Except.error "unreachable") (by decide) (Or.inl rfl)).2.2

end BybitWorker
